import Mathlib

/-!
Shallow embedding of `src/main.py` of the `llm_bench` repository: a CLI tool
that locates (or downloads) the `localscore` benchmarking binary, resolves a
user-supplied GGUF model path against a configured base directory, and runs
the binary against the model, streaming its output and forwarding its exit
code.

Modelling conventions:
  * A filesystem path is `FPath`: an absolute-flag plus a list of name
    components.  `Path.resolve()` is modelled as prefixing the (absolute)
    current working directory onto relative paths; symlinks, `.` and `..`
    are not modelled (none of the verified behaviours depend on them), and
    `expanduser` is the identity in the model (tilde entries are represented
    as relative entries, which exhibit the same resolved-vs-raw distinction).
  * The filesystem state `FS` lists the existing regular files, existing
    directories and execute-permitted files, all as canonical absolute paths;
    `Path.exists` / `is_file` / `is_dir` / `os.access(..., X_OK)` resolve
    their argument and then test membership.
  * The `PATH` environment variable, already split on `os.pathsep`, is a
    `List FPath` of raw (unresolved) entries.
  * Effects are made explicit in result records: printed lines (`log`),
    shell commands spawned (`calls`), network requests (`net`) and
    filesystem writes (`writes`).  The external subprocess is an oracle
    `exec : String → List String × Nat` giving, for a command line, the
    merged stdout/stderr lines (in arrival order) and the exit code.
-/

/-- A filesystem path: absolute flag plus name components (no `.`/`..`). -/
structure FPath where
  absolute : Bool
  comps : List String
deriving DecidableEq, Repr

/-- `pathlib` `/` operator: an absolute right operand replaces the left. -/
def FPath.join (p q : FPath) : FPath :=
  if q.absolute then q else ⟨p.absolute, p.comps ++ q.comps⟩

/-- `pathlib` `.parent`: drop the last component. -/
def FPath.parent (p : FPath) : FPath :=
  ⟨p.absolute, p.comps.dropLast⟩

/-- `str(path)`: slash-joined rendering, as embedded into command lines and
printed diagnostics. -/
def FPath.str (p : FPath) : String :=
  if p.absolute then "/" ++ String.intercalate "/" p.comps
  else if p.comps.isEmpty then "." else String.intercalate "/" p.comps

/-- Filesystem state: the current working directory (absolute, as the OS
guarantees) and the sets of existing files, existing directories and
execute-permitted files, all canonical absolute paths. -/
structure FS where
  cwd : List String
  files : List FPath
  dirs : List FPath
  execs : List FPath
deriving DecidableEq, Repr

/-- `Path.cwd()`. -/
def FS.cwdPath (fs : FS) : FPath := ⟨true, fs.cwd⟩

/-- `Path.resolve()`: prefix the current working directory onto relative
paths; absolute paths are already canonical in the model. -/
def FS.resolve (fs : FS) (p : FPath) : FPath :=
  if p.absolute then p else ⟨true, fs.cwd ++ p.comps⟩

/-- `Path.exists()` (files or directories). -/
def FS.pexists (fs : FS) (p : FPath) : Bool :=
  fs.files.contains (fs.resolve p) || fs.dirs.contains (fs.resolve p)

/-- `Path.is_file()`. -/
def FS.isFile (fs : FS) (p : FPath) : Bool :=
  fs.files.contains (fs.resolve p)

/-- `Path.is_dir()`. -/
def FS.isDir (fs : FS) (p : FPath) : Bool :=
  fs.dirs.contains (fs.resolve p)

/-- `os.access(p, os.X_OK)`. -/
def FS.isExec (fs : FS) (p : FPath) : Bool :=
  fs.execs.contains (fs.resolve p)

/-- `LOCALSCORE_BIN = "localscore"` as a relative path component. -/
def binName : FPath := ⟨false, ["localscore"]⟩

/-- `LOCALSCORE_VERSION` (the configured default). -/
def LOCALSCORE_VERSION : String := "0.9.3"

/-- `LOCALSCORE_URL`. -/
def LOCALSCORE_URL : String :=
  "https://blob.localscore.ai/localscore-" ++ LOCALSCORE_VERSION

/-- The body of the `find_localscore` PATH loop for one entry `d`
(src/main.py lines 61-67): resolve the entry, require it to be an existing
directory, and require `dir/localscore` to be an existing, regular,
execute-permitted file. -/
def dir_matches (fs : FS) (d : FPath) : Bool :=
  let rd := fs.resolve d
  let cand := rd.join binName
  fs.pexists rd && fs.isDir rd &&
    (fs.pexists cand && fs.isFile cand && fs.isExec cand)

/-- The `find_localscore` PATH loop (src/main.py lines 60-67): first
matching directory wins, later entries are never consulted. -/
def findInPath (fs : FS) : List FPath → Option FPath
  | [] => none
  | d :: rest =>
    if dir_matches fs d then some ((fs.resolve d).join binName)
    else findInPath fs rest

/-- The `find_localscore` current-directory fallback test
(src/main.py lines 70-71). -/
def cwd_matches (fs : FS) : Bool :=
  let lp := fs.cwdPath.join binName
  fs.pexists lp && fs.isFile lp && fs.isExec lp

/-- `find_localscore` (src/main.py lines 56-74): scan PATH entries in
order, then fall back to exactly one further location, the current working
directory; return `none` (not an error) when neither yields a match. -/
def find_localscore (fs : FS) (env : List FPath) : Option FPath :=
  match findInPath fs env with
  | some p => some p
  | none =>
    if cwd_matches fs then some (fs.resolve (fs.cwdPath.join binName))
    else none

/-- The command-name choice of `run_localscore` (src/main.py lines 155-159):
the found binary's (resolved) parent directory is compared against the raw
`PATH` entries; on membership the bare name is used, otherwise the absolute
path. -/
def cmd_name (env : List FPath) (lsPath : FPath) : String :=
  if env.contains lsPath.parent then "localscore" else lsPath.str

/-- The model-path resolution phase of `run_localscore`
(src/main.py lines 162-176): for a relative path that does not exist, try
joining it under `MODEL_DIR`, recording both resolved candidates as tried;
finally resolve the selected path.  Returns the resolved path and the
tried-list. -/
def resolve_model_path (fs : FS) (modelDir : FPath) (mp : FPath) :
    FPath × List FPath :=
  if !mp.absolute && !fs.pexists mp then
    let withBase := modelDir.join mp
    let tried := [fs.resolve mp, fs.resolve withBase]
    (fs.resolve (if fs.pexists withBase then withBase else mp), tried)
  else (fs.resolve mp, [])

/-- Result of `run_localscore`: printed lines, returned exit code, and the
shell command lines spawned. -/
structure RunResult where
  log : List String
  code : Nat
  calls : List String
deriving DecidableEq, Repr

/-- `run_localscore` (src/main.py lines 147-202).  The subprocess oracle
`exec` maps a command line to the merged output lines (arrival order) and
the exit code; `sh` raises `ErrorReturnCode` on a non-zero code, which the
source catches, prints, and converts into that same exit code. -/
def run_localscore (fs : FS) (env : List FPath) (modelDir : FPath)
    (exec : String → List String × Nat) (modelPathArg : FPath) : RunResult :=
  match find_localscore fs env with
  | none =>
    ⟨["Error: localscore not found in PATH or current directory. Run with --download-localscore first."],
     1, []⟩
  | some lsPath =>
    let cn := cmd_name env lsPath
    let rt := resolve_model_path fs modelDir modelPathArg
    let mp := rt.fst
    let tried := rt.snd
    if fs.pexists mp = false then
      ⟨["Error: Model file not found.", "Looked for:"]
         ++ ((if tried.isEmpty then [mp] else tried).map
              (fun p => "  - " ++ p.str))
         ++ ["", "MODEL_DIR is set to: " ++ modelDir.str],
       1, []⟩
    else
      let cmdStr := cn ++ " -m " ++ mp.str
      let r := exec cmdStr
      ⟨["Running: " ++ cn ++ " -m " ++ mp.str] ++ r.fst
         ++ (if r.snd = 0 then []
             else ["Error running localscore: " ++ cmdStr]),
       r.snd, [cmdStr]⟩

/-- Result of `download_localscore`: printed lines, network requests made,
and filesystem paths written (created, chmod-ed, or renamed onto). -/
structure DLResult where
  log : List String
  net : List String
  writes : List String
deriving DecidableEq, Repr

/-- `download_localscore` (src/main.py lines 77-103): when the binary is
already locatable and `force` is not set, only an informational message is
printed; otherwise the binary is fetched over the network, written to a
version-named temporary file, made executable, and renamed to
`localscore`. -/
def download_localscore (fs : FS) (env : List FPath) (force : Bool) :
    DLResult :=
  if !force && (find_localscore fs env).isSome then
    ⟨["localscore is already available. Use --force to download anyway."],
     [], []⟩
  else
    ⟨["Downloading localscore " ++ LOCALSCORE_VERSION ++ "...",
      "Downloaded and made executable: localscore"],
     [LOCALSCORE_URL],
     ["localscore-" ++ LOCALSCORE_VERSION, "localscore"]⟩

/-- Outcome of `download_model_from_hf`: the returned path (or `none` for
failure), plus its observable effects. -/
structure FetchOutcome where
  result : Option FPath
  log : List String
  net : List String
  writes : List String
deriving DecidableEq, Repr

/-- `download_model_from_hf` (src/main.py lines 106-144), an external
collaborator of the core: the hub interaction is abstracted by the oracle
`hf`, the final on-disk path on success or `none` on failure; the function
creates `MODEL_DIR` and writes the model file on success. -/
def download_model_from_hf (modelDir : FPath) (hf : Option FPath) :
    FetchOutcome :=
  { result := hf
  , log := ["Downloading model from repo..."] ++
      (match hf with
       | some p => ["Model downloaded to: " ++ p.str]
       | none => ["Error downloading model"])
  , net := ["hf_hub"]
  , writes := [modelDir.str] ++ (match hf with
      | some p => [p.str]
      | none => []) }

/-- Parsed command-line arguments (src/main.py lines 208-223). -/
structure Args where
  help : Bool
  modelPath : Option FPath
  downloadLocalscore : Bool
  downloadModel : Bool
  force : Bool
deriving DecidableEq, Repr

/-- Result of `main`: printed lines, returned code, spawned shell commands,
network requests, filesystem writes. -/
structure MainResult where
  log : List String
  code : Nat
  calls : List String
  net : List String
  writes : List String
deriving DecidableEq, Repr

/-- The module docstring, printed by `-h`/`--help`
(src/main.py lines 226-228). -/
def docString : String :=
  "Usage: llm-bench [--download-localscore] [--download-model] <model-path>"

/-- The argparse-generated usage/help text, printed when no model path is
available (src/main.py lines 243-245). -/
def parserHelp : String :=
  "usage: llm-bench [-h] [--download-localscore] [--download-model] [-f] [model_path]"

/-- The tail of `main` after the optional downloads (src/main.py lines
242-248): with no model path, print usage and return 0; otherwise run
`run_localscore` and return its code. -/
def mainRun (fs : FS) (env : List FPath) (modelDir : FPath)
    (exec : String → List String × Nat) (dl : DLResult)
    (flog fnet fwrites : List String) (mp : Option FPath) : MainResult :=
  match mp with
  | none =>
    ⟨dl.log ++ flog ++ [parserHelp], 0, [], dl.net ++ fnet,
     dl.writes ++ fwrites⟩
  | some p =>
    let r := run_localscore fs env modelDir exec p
    ⟨dl.log ++ flog ++ r.log, r.code, r.calls, dl.net ++ fnet,
     dl.writes ++ fwrites⟩

/-- `main` (src/main.py lines 205-248), named main_py since Lean reserves main: handle `--help`, perform the
requested downloads (aborting with code 1 when the model fetch fails), fall
back to usage text when no model path is available, and otherwise delegate
to `run_localscore`. -/
def main_py (fs : FS) (env : List FPath) (modelDir : FPath)
    (exec : String → List String × Nat) (hf : Option FPath) (args : Args) :
    MainResult :=
  if args.help then
    ⟨[docString], 0, [], [], []⟩
  else
    let dl : DLResult :=
      if args.downloadLocalscore then download_localscore fs env args.force
      else ⟨[], [], []⟩
    if args.downloadModel then
      let f := download_model_from_hf modelDir hf
      match f.result with
      | none =>
        ⟨dl.log ++ f.log ++ ["Failed to download model."], 1, [],
         dl.net ++ f.net, dl.writes ++ f.writes⟩
      | some p =>
        mainRun fs env modelDir exec dl f.log f.net f.writes
          (some (args.modelPath.getD p))
    else
      mainRun fs env modelDir exec dl [] [] [] args.modelPath

/-- The `if __name__ == "__main__"` block (src/main.py lines 251-259):
`main()` is called but its return value is never passed to `exit`, so on
normal completion the interpreter falls off the end of the script and the
process exits with code 0, whatever `main` returned.  (`main` in this
embedding is total, so neither `except` branch fires.)  Returns the printed
lines and the process exit code. -/
def script_run (fs : FS) (env : List FPath) (modelDir : FPath)
    (exec : String → List String × Nat) (hf : Option FPath) (args : Args) :
    List String × Nat :=
  let r := main_py fs env modelDir exec hf args
  (r.log, 0)

/-! ### Basic facts about path resolution -/

/-- Resolution always yields an absolute (canonical) path. -/
theorem FS.resolve_absolute (fs : FS) (p : FPath) :
    (fs.resolve p).absolute = true := by
  unfold FS.resolve
  split
  · assumption
  · rfl

/-- Resolution is idempotent. -/
theorem FS.resolve_idem (fs : FS) (p : FPath) :
    fs.resolve (fs.resolve p) = fs.resolve p := by
  show (if (fs.resolve p).absolute then fs.resolve p else _) = fs.resolve p
  rw [FS.resolve_absolute]
  simp

/-- Existence is invariant under resolution. -/
theorem FS.pexists_resolve (fs : FS) (p : FPath) :
    fs.pexists (fs.resolve p) = fs.pexists p := by
  unfold FS.pexists
  rw [FS.resolve_idem]

/-! ### Shared concrete scenario used by the witnesses -/

/-- Example search-path directory `/usr/bin`. -/
def usrBin : FPath := ⟨true, ["usr", "bin"]⟩

/-- Example located binary `/usr/bin/localscore`. -/
def lsUsrBin : FPath := ⟨true, ["usr", "bin", "localscore"]⟩

/-- Example working directory `/home/u`. -/
def homeU : List String := ["home", "u"]

/-- Example configured base directory `/home/u/models`. -/
def modelsDir : FPath := ⟨true, ["home", "u", "models"]⟩

/-- Example model file `/home/u/m.gguf` (present in the working directory). -/
def mFile : FPath := ⟨true, ["home", "u", "m.gguf"]⟩

/-- Example model file `/home/u/models/m2.gguf` (present only under the base
directory). -/
def mBase : FPath := ⟨true, ["home", "u", "models", "m2.gguf"]⟩

/-- Example filesystem: binary in `/usr/bin`, models as above. -/
def fsEx : FS :=
  ⟨homeU, [lsUsrBin, mFile, mBase], [usrBin, modelsDir, ⟨true, homeU⟩],
   [lsUsrBin]⟩

/-- Example search path, the single entry `/usr/bin`. -/
def envEx : List FPath := [usrBin]

/-- Example subprocess oracle: one output line, exit code 0. -/
def execEx : String → List String × Nat := fun _ => (["ok"], 0)

/-! ### C2 / C8 / C10 / C3: the path-resolution phase -/

/-- C2: for a relative model path that does not exist relative to the
working directory but does exist under the base directory, resolution
selects the base-joined candidate, resolved to canonical absolute form, and
the tried-list is exactly original-resolved then base-joined-resolved. -/
theorem resolve_model_path_base_fallback (fs : FS) (modelDir mp : FPath)
    (habs : mp.absolute = false) (h1 : fs.pexists mp = false)
    (h2 : fs.pexists (modelDir.join mp) = true) :
    resolve_model_path fs modelDir mp =
      (fs.resolve (modelDir.join mp),
       [fs.resolve mp, fs.resolve (modelDir.join mp)]) ∧
    (resolve_model_path fs modelDir mp).fst.absolute = true := by
  unfold resolve_model_path
  simp [habs, h1, h2, FS.resolve_absolute]

/-- C2 witness: `m2.gguf` is absent from `/home/u` but present in
`/home/u/models`. -/
theorem resolve_model_path_base_fallback_witness :
    resolve_model_path fsEx modelsDir ⟨false, ["m2.gguf"]⟩ =
      (fsEx.resolve (modelsDir.join ⟨false, ["m2.gguf"]⟩),
       [fsEx.resolve ⟨false, ["m2.gguf"]⟩,
        fsEx.resolve (modelsDir.join ⟨false, ["m2.gguf"]⟩)]) ∧
    (resolve_model_path fsEx modelsDir ⟨false, ["m2.gguf"]⟩).fst.absolute =
      true :=
  resolve_model_path_base_fallback fsEx modelsDir ⟨false, ["m2.gguf"]⟩
    (by decide) (by decide) (by decide)

/-- C8: a relative model path that exists relative to the working directory
is returned resolved to canonical absolute form, with an empty tried-list
(the base-joined candidate is never constructed). -/
theorem resolve_model_path_cwd_hit (fs : FS) (modelDir mp : FPath)
    (habs : mp.absolute = false) (h1 : fs.pexists mp = true) :
    resolve_model_path fs modelDir mp = (fs.resolve mp, []) ∧
    (fs.resolve mp).absolute = true := by
  unfold resolve_model_path
  simp [habs, h1, FS.resolve_absolute]

/-- C8 witness: `m.gguf` exists in the working directory `/home/u`. -/
theorem resolve_model_path_cwd_hit_witness :
    resolve_model_path fsEx modelsDir ⟨false, ["m.gguf"]⟩ =
      (fsEx.resolve ⟨false, ["m.gguf"]⟩, []) ∧
    (fsEx.resolve ⟨false, ["m.gguf"]⟩).absolute = true :=
  resolve_model_path_cwd_hit fsEx modelsDir ⟨false, ["m.gguf"]⟩
    (by decide) (by decide)

/-- C10: for an absolute model path that does not exist, `run_localscore`
returns 1 without spawning, the tried-list stays empty (the base directory
is never joined with an absolute path), and the diagnostic lists exactly
one candidate: the supplied path itself (already canonical absolute). -/
theorem run_localscore_absolute_missing (fs : FS) (env : List FPath)
    (modelDir : FPath) (exec : String → List String × Nat) (mp ls : FPath)
    (habs : mp.absolute = true) (h1 : fs.pexists mp = false)
    (hfind : find_localscore fs env = some ls) :
    (resolve_model_path fs modelDir mp).snd = [] ∧
    run_localscore fs env modelDir exec mp =
      ⟨["Error: Model file not found.", "Looked for:", "  - " ++ mp.str, "",
        "MODEL_DIR is set to: " ++ modelDir.str], 1, []⟩ := by
  have hres : fs.resolve mp = mp := by
    unfold FS.resolve
    simp [habs]
  constructor
  · unfold resolve_model_path
    simp [habs]
  · unfold run_localscore
    rw [hfind]
    unfold resolve_model_path
    simp [habs, hres, h1]

/-- C10 witness: `/home/u/nope.gguf` is absent from the example
filesystem. -/
theorem run_localscore_absolute_missing_witness :
    (resolve_model_path fsEx modelsDir ⟨true, ["home", "u", "nope.gguf"]⟩).snd
      = [] ∧
    run_localscore fsEx envEx modelsDir execEx
        ⟨true, ["home", "u", "nope.gguf"]⟩ =
      ⟨["Error: Model file not found.", "Looked for:",
        "  - " ++ FPath.str ⟨true, ["home", "u", "nope.gguf"]⟩, "",
        "MODEL_DIR is set to: " ++ modelsDir.str], 1, []⟩ :=
  run_localscore_absolute_missing fsEx envEx modelsDir execEx
    ⟨true, ["home", "u", "nope.gguf"]⟩ lsUsrBin (by decide) (by decide)
    (by decide)

/-- C3: for a relative model path that exists at neither candidate
location, `run_localscore` returns 1 without spawning, and the diagnostic
lists both tried candidates in canonical absolute form plus the configured
base directory. -/
theorem run_localscore_both_missing (fs : FS) (env : List FPath)
    (modelDir : FPath) (exec : String → List String × Nat) (mp ls : FPath)
    (habs : mp.absolute = false) (h1 : fs.pexists mp = false)
    (h2 : fs.pexists (modelDir.join mp) = false)
    (hfind : find_localscore fs env = some ls) :
    run_localscore fs env modelDir exec mp =
      ⟨["Error: Model file not found.", "Looked for:",
        "  - " ++ (fs.resolve mp).str,
        "  - " ++ (fs.resolve (modelDir.join mp)).str, "",
        "MODEL_DIR is set to: " ++ modelDir.str], 1, []⟩ := by
  unfold run_localscore
  rw [hfind]
  unfold resolve_model_path
  simp [habs, h1, h2, FS.pexists_resolve]

/-- C3 witness: `nope.gguf` exists neither in `/home/u` nor in
`/home/u/models`. -/
theorem run_localscore_both_missing_witness :
    run_localscore fsEx envEx modelsDir execEx ⟨false, ["nope.gguf"]⟩ =
      ⟨["Error: Model file not found.", "Looked for:",
        "  - " ++ (fsEx.resolve ⟨false, ["nope.gguf"]⟩).str,
        "  - " ++ (fsEx.resolve (modelsDir.join ⟨false, ["nope.gguf"]⟩)).str,
        "", "MODEL_DIR is set to: " ++ modelsDir.str], 1, []⟩ :=
  run_localscore_both_missing fsEx envEx modelsDir execEx
    ⟨false, ["nope.gguf"]⟩ lsUsrBin (by decide) (by decide) (by decide)
    (by decide)

/-! ### C4: the executable locator -/

/-- PATH entries on which the loop body fails do not affect the scan. -/
theorem findInPath_append_of_none (fs : FS) (pre l : List FPath)
    (h : ∀ e ∈ pre, dir_matches fs e = false) :
    findInPath fs (pre ++ l) = findInPath fs l := by
  induction pre with
  | nil => rfl
  | cons d rest ih =>
    have hd : dir_matches fs d = false := h d (List.mem_cons_self d rest)
    have ih2 := ih (fun e he => h e (List.mem_cons_of_mem d he))
    rw [List.cons_append]
    simp only [findInPath, hd]
    simpa using ih2

/-- Example PATH entry `/nodir` that is not an existing directory. -/
def noDir : FPath := ⟨true, ["nodir"]⟩

/-- Example filesystem whose only copy of the binary sits in the working
directory `/home/u`. -/
def fsCwd : FS :=
  ⟨homeU, [⟨true, ["home", "u", "localscore"]⟩], [⟨true, homeU⟩],
   [⟨true, ["home", "u", "localscore"]⟩]⟩

/-- Example filesystem with no binary anywhere. -/
def fsNone : FS := ⟨homeU, [], [], []⟩

/-- C4: `find_localscore` returns the candidate of the first PATH directory
(in listed order) containing an execute-permitted regular file of the name,
stopping there; when no PATH entry matches it checks exactly one further
location, the working directory; when that also fails it returns `none`
(not an error); and entries that are not existing directories are silently
skipped (their loop test fails). -/
theorem find_localscore_spec :
    (∀ (fs : FS) (pre : List FPath) (d : FPath) (post : List FPath),
        (∀ e ∈ pre, dir_matches fs e = false) → dir_matches fs d = true →
        find_localscore fs (pre ++ d :: post) =
          some ((fs.resolve d).join binName)) ∧
    (∀ (fs : FS) (dirs : List FPath),
        (∀ e ∈ dirs, dir_matches fs e = false) → cwd_matches fs = true →
        find_localscore fs dirs =
          some (fs.resolve (fs.cwdPath.join binName))) ∧
    (∀ (fs : FS) (dirs : List FPath),
        (∀ e ∈ dirs, dir_matches fs e = false) → cwd_matches fs = false →
        find_localscore fs dirs = none) ∧
    (∀ (fs : FS) (e : FPath), fs.isDir (fs.resolve e) = false →
        dir_matches fs e = false) := by
  have hnone : ∀ (fs : FS) (dirs : List FPath),
      (∀ e ∈ dirs, dir_matches fs e = false) → findInPath fs dirs = none := by
    intro fs dirs hall
    have h := findInPath_append_of_none fs dirs [] hall
    simpa using h
  refine ⟨?_, ?_, ?_, ?_⟩
  · intro fs pre d post hpre hd
    unfold find_localscore
    rw [findInPath_append_of_none fs pre (d :: post) hpre]
    simp [findInPath, hd]
  · intro fs dirs hall hcwd
    unfold find_localscore
    rw [hnone fs dirs hall]
    simp [hcwd]
  · intro fs dirs hall hcwd
    unfold find_localscore
    rw [hnone fs dirs hall]
    simp [hcwd]
  · intro fs e hd
    unfold dir_matches
    simp [hd]

/-- C4 witness: the binary in `/usr/bin` is found past the dead entry
`/nodir`; with only dead entries the working-directory copy is found; with
nothing anywhere the result is `none`. -/
theorem find_localscore_spec_witness :
    find_localscore fsEx [noDir, usrBin, modelsDir] =
      some ((fsEx.resolve usrBin).join binName) ∧
    find_localscore fsCwd [noDir] =
      some (fsCwd.resolve (fsCwd.cwdPath.join binName)) ∧
    find_localscore fsNone [noDir] = none ∧
    dir_matches fsNone noDir = false :=
  ⟨find_localscore_spec.1 fsEx [noDir] usrBin [modelsDir] (by decide)
     (by decide),
   find_localscore_spec.2.1 fsCwd [noDir] (by decide) (by decide),
   find_localscore_spec.2.2.1 fsNone [noDir] (by decide) (by decide),
   find_localscore_spec.2.2.2 fsNone noDir (by decide)⟩

/-! ### C5: bare-name versus absolute-path invocation -/

/-- Raw relative PATH entry `bin`. -/
def relEntry : FPath := ⟨false, ["bin"]⟩

/-- Search path consisting of the single raw entry `bin`. -/
def envRel : List FPath := [relEntry]

/-- `/home/u/proj/bin`, the directory the entry `bin` denotes when the
working directory is `/home/u/proj`. -/
def projBin : FPath := ⟨true, ["home", "u", "proj", "bin"]⟩

/-- `/home/u/proj/bin/localscore`. -/
def lsRel : FPath := ⟨true, ["home", "u", "proj", "bin", "localscore"]⟩

/-- `/home/u/proj/m.gguf`. -/
def mRel : FPath := ⟨true, ["home", "u", "proj", "m.gguf"]⟩

/-- Filesystem for the relative-PATH-entry scenario: working directory
`/home/u/proj`, binary only in `/home/u/proj/bin`. -/
def fsRel : FS := ⟨["home", "u", "proj"], [lsRel, mRel], [projBin], [lsRel]⟩

/-- C5 counterexample: the binary is located via the search-path entry
`bin`, whose resolved directory is exactly the located binary's containing
directory — yet `run_localscore` spawns it by absolute path, not by bare
name, because the source compares the resolved parent string against the
raw PATH entries. -/
theorem cmd_name_search_path_cex :
    find_localscore fsRel envRel = some lsRel ∧
    (∃ e ∈ envRel, fsRel.resolve e = lsRel.parent) ∧
    (run_localscore fsRel envRel modelsDir execEx mRel).calls =
      [lsRel.str ++ " -m " ++ mRel.str] ∧
    lsRel.str ≠ "localscore" := by
  refine ⟨by decide, ⟨relEntry, by decide, by decide⟩, by decide, by decide⟩

/-- C5 amended: the spawned command line starts with `cmd_name`, and the
bare name is chosen exactly when the located binary's resolved parent
directory is verbatim one of the raw search-path entries; otherwise
(including when the binary was found via a non-canonical entry, or only in
the working directory) the absolute path is used. -/
theorem cmd_name_amended (fs : FS) (env : List FPath) (modelDir : FPath)
    (exec : String → List String × Nat) (mp ls : FPath)
    (hfind : find_localscore fs env = some ls)
    (hres : fs.pexists (resolve_model_path fs modelDir mp).fst = true) :
    (run_localscore fs env modelDir exec mp).calls =
      [cmd_name env ls ++ " -m " ++
        (resolve_model_path fs modelDir mp).fst.str] ∧
    (env.contains ls.parent = true → cmd_name env ls = "localscore") ∧
    (env.contains ls.parent = false → cmd_name env ls = ls.str) := by
  refine ⟨?_, ?_, ?_⟩
  · unfold run_localscore
    rw [hfind]
    simp [hres]
  · intro h
    unfold cmd_name
    rw [h]
    simp
  · intro h
    unfold cmd_name
    rw [h]
    simp

/-- C5 amended witness: in the canonical-PATH scenario the parent
`/usr/bin` is verbatim on the search path, so the bare name is used. -/
theorem cmd_name_amended_witness :
    (run_localscore fsEx envEx modelsDir execEx mFile).calls =
      [cmd_name envEx lsUsrBin ++ " -m " ++
        (resolve_model_path fsEx modelsDir mFile).fst.str] ∧
    (envEx.contains lsUsrBin.parent = true →
      cmd_name envEx lsUsrBin = "localscore") ∧
    (envEx.contains lsUsrBin.parent = false →
      cmd_name envEx lsUsrBin = lsUsrBin.str) :=
  cmd_name_amended fsEx envEx modelsDir execEx mFile lsUsrBin (by decide)
    (by decide)

/-! ### C6 / C7: orchestrator terminal states -/

/-- C6: when the model-fetch flag is set and the fetch fails, `main`
returns failure code 1 and never spawns the benchmarking executable,
whatever the positional model-path argument. -/
theorem main_fetch_fail (fs : FS) (env : List FPath) (modelDir : FPath)
    (exec : String → List String × Nat) (args : Args)
    (hh : args.help = false) (hdm : args.downloadModel = true) :
    (main_py fs env modelDir exec none args).code = 1 ∧
    (main_py fs env modelDir exec none args).calls = [] := by
  unfold main_py
  rw [hh, hdm]
  simp [download_model_from_hf]

/-- Arguments for the failed-fetch scenario: a positional path is also
supplied. -/
def argsFetchFail : Args := ⟨false, some mFile, false, true, false⟩

/-- C6 witness: the fetch fails while `/home/u/m.gguf` was supplied
positionally; the run still aborts with 1 and spawns nothing. -/
theorem main_fetch_fail_witness :
    (main_py fsEx envEx modelsDir execEx none argsFetchFail).code = 1 ∧
    (main_py fsEx envEx modelsDir execEx none argsFetchFail).calls = [] :=
  main_fetch_fail fsEx envEx modelsDir execEx argsFetchFail rfl rfl

/-- C7: `-h`/`--help` prints the usage text and returns 0, bypassing all
other logic including downloads; and when no model path is available after
the optional fetch steps, `main` prints usage guidance and returns 0
without spawning anything. -/
theorem main_help_and_usage (fs : FS) (env : List FPath) (modelDir : FPath)
    (exec : String → List String × Nat) (hf : Option FPath) (args : Args) :
    (args.help = true →
      main_py fs env modelDir exec hf args = ⟨[docString], 0, [], [], []⟩) ∧
    (args.help = false → args.downloadModel = false →
      args.modelPath = none →
      (main_py fs env modelDir exec hf args).code = 0 ∧
      (main_py fs env modelDir exec hf args).calls = [] ∧
      parserHelp ∈ (main_py fs env modelDir exec hf args).log) := by
  constructor
  · intro h
    unfold main_py
    rw [h]
    simp
  · intro h1 h2 h3
    unfold main_py mainRun
    rw [h1, h2, h3]
    simp

/-- Arguments for the help scenario (download flags set, to be bypassed). -/
def argsHelp : Args := ⟨true, none, true, true, false⟩

/-- Arguments with nothing requested at all. -/
def argsEmpty : Args := ⟨false, none, false, false, false⟩

/-- C7 witness: `--help` with download flags set yields only the docstring
and code 0; a bare invocation yields the usage text and code 0. -/
theorem main_help_and_usage_witness :
    main_py fsEx envEx modelsDir execEx none argsHelp =
      ⟨[docString], 0, [], [], []⟩ ∧
    ((main_py fsEx envEx modelsDir execEx none argsEmpty).code = 0 ∧
     (main_py fsEx envEx modelsDir execEx none argsEmpty).calls = [] ∧
     parserHelp ∈ (main_py fsEx envEx modelsDir execEx none argsEmpty).log) :=
  ⟨(main_help_and_usage fsEx envEx modelsDir execEx none argsHelp).1 rfl,
   (main_help_and_usage fsEx envEx modelsDir execEx none argsEmpty).2
     rfl rfl rfl⟩

/-! ### C9: idempotence of the binary download -/

/-- C9: when the binary is already locatable and force is not set,
`download_localscore` prints only the informational message — no network
request and no filesystem write. -/
theorem download_localscore_idempotent (fs : FS) (env : List FPath)
    (h : (find_localscore fs env).isSome = true) :
    download_localscore fs env false =
      ⟨["localscore is already available. Use --force to download anyway."],
       [], []⟩ := by
  unfold download_localscore
  simp [h]

/-- C9 witness: the binary is locatable in `/usr/bin`. -/
theorem download_localscore_idempotent_witness :
    download_localscore fsEx envEx false =
      ⟨["localscore is already available. Use --force to download anyway."],
       [], []⟩ :=
  download_localscore_idempotent fsEx envEx (by decide)

/-! ### C1: the subprocess exit code and the process exit code -/

/-- Subprocess oracle for the end-to-end scenario: two output lines, exit
code 3. -/
def exec3 : String → List String × Nat := fun _ => (["out1", "out2"], 3)

/-- Arguments supplying only the resolvable model path. -/
def argsRun : Args := ⟨false, some mFile, false, false, false⟩

/-- C1, the code's actual behaviour at the end-to-end scenario: the
benchmarking executable exits with code 3 and all its output lines are
streamed in arrival order, `main` returns 3 — but the top-level script
block discards `main`'s return value, so the process exits with code 0,
not 3. -/
theorem script_exit_code_discards_runner_outcome :
    (main_py fsEx envEx modelsDir exec3 none argsRun).code = 3 ∧
    (main_py fsEx envEx modelsDir exec3 none argsRun).log =
      ["Running: localscore -m /home/u/m.gguf", "out1", "out2",
       "Error running localscore: localscore -m /home/u/m.gguf"] ∧
    (script_run fsEx envEx modelsDir exec3 none argsRun).snd = 0 := by
  refine ⟨by decide, by decide, rfl⟩
